import Mathlib

/-!
Verification of the content validation and quality-scoring engine of the
hack-ai-stan-backend repository (app/services/content_validator.py together
with app/models/content.py and app/models/platform_rules.py), as a shallow
embedding in Lean 4.

Modelling conventions:
* Python strings are Lean `String`s (both are sequences of Unicode code
  points, so `len` agrees with `String.length`).
* Python `Optional[T]` fields are `Option T`; Python truthiness on them
  (`if x:`) is made explicit (`none` and the empty string / `0` are falsy).
* Python floats are modelled as exact rationals `ℚ`.  Every float literal
  of the source (0.3, 0.6, 0.7, 0.9, the score weights, ...) is an exact
  decimal, written via `mkRat`; the single float comparison forced during
  validation, `character_count > title_max_length * 0.9`, is written
  `mkRat (9 * title_max_length) 10 < character_count`, which coincides with
  the Python float comparison for every platform of the registry (each
  registry maximum times float 0.9 rounds to the exact decimal product).
* Mutation (`validate_against_platform_rules` writes `meets_requirements`
  and `validation_notes` on the record) is modelled by returning the updated
  record next to the method's boolean result.
* `datetime` timestamps and the free-form `metadata` dict carry no
  validation logic and are not represented.
* Python's `list(set(xs))` iterates in unspecified order; it is modelled as
  first-occurrence deduplication.
-/

set_option maxRecDepth 100000

/-- Python `needle` is a prefix of `hay` (char lists). -/
def isLeading : List Char → List Char → Bool
  | [], _ => true
  | _ :: _, [] => false
  | a :: ps, b :: ls => a == b && isLeading ps ls

/-- Python substring containment over char lists (empty needle is contained). -/
def hasSegment (n : List Char) : List Char → Bool
  | [] => n.isEmpty
  | c :: cs => isLeading n (c :: cs) || hasSegment n cs

/-- Python `needle in hay` for strings. -/
def pyIn (needle hay : String) : Bool := hasSegment needle.toList hay.toList

/-- Python `s.startswith(p)`. -/
def pyStartsWith (p s : String) : Bool := isLeading p.toList s.toList

/-- Python `s.lower()` (inputs here are ASCII). -/
def strLower (s : String) : String := String.mk (s.toList.map Char.toLower)

/-- Python `s.strip()`: drop leading and trailing whitespace. -/
def pyStrip (s : String) : String :=
  String.mk (((s.toList.dropWhile Char.isWhitespace).reverse.dropWhile
    Char.isWhitespace).reverse)

/-- Helper for `pySplitWs`: split on whitespace runs, accumulator holds the
current word reversed. -/
def splitWsAux : List Char → List Char → List String
  | [], acc => if acc.isEmpty then [] else [String.mk acc.reverse]
  | c :: cs, acc =>
    if c.isWhitespace then
      if acc.isEmpty then splitWsAux cs []
      else String.mk acc.reverse :: splitWsAux cs []
    else splitWsAux cs (c :: acc)

/-- Python `s.split()` with no argument: split on whitespace, no empty parts. -/
def pySplitWs (s : String) : List String := splitWsAux s.toList []

/-- Python `s[:n]`. -/
def pySlice (s : String) (n : Nat) : String := String.mk (s.toList.take n)

/-- Helper for `pyTitleStr`: the flag records whether the previous character
was alphabetic. -/
def pyTitleAux : Bool → List Char → List Char
  | _, [] => []
  | prevAlpha, ch :: cs =>
    (if ch.isAlpha then (if prevAlpha then ch.toLower else ch.toUpper) else ch)
      :: pyTitleAux ch.isAlpha cs

/-- Python `s.title()`: first letter of each letter-run uppercased, the rest
lowercased (ASCII inputs). -/
def pyTitleStr (s : String) : String := String.mk (pyTitleAux false s.toList)

/-- Python truthiness of an `Optional[str]` (`None` and `""` are falsy). -/
def truthyS : Option String → Bool
  | none => false
  | some s => !s.isEmpty

/-- Python truthiness of an `Optional[int]` (`None` and `0` are falsy). -/
def truthyN : Option Nat → Bool
  | none => false
  | some n => n != 0

/-- Python `a or b` for an `Optional[str]` and a string default. -/
def pyOrStr : Option String → String → String
  | some s, d => if s.isEmpty then d else s
  | none, d => d

/-- The string behind an `Optional[str]` (callers guard with `truthyS`). -/
def optStr (o : Option String) : String := o.getD ""

/-- First-occurrence deduplication (model of Python `list(set(xs))`). -/
def dedupFirst (l : List String) : List String :=
  l.foldl (fun acc x => if x ∈ acc then acc else acc ++ [x]) []

/-- ContentStyle enum of app/models/platform_rules.py. -/
inductive ContentStyle where
  | educational_entertainment
  | visual_lifestyle
  | community_building
  | trend_focused
  | professional
  | gaming_community
  | concise_timely
deriving DecidableEq

/-- PlatformType enum of app/models/platform_rules.py. -/
inductive PlatformType where
  | youtube
  | instagram
  | facebook
  | tiktok
  | x_twitter
  | linkedin
  | twitch
deriving DecidableEq

/-- PlatformRules model of app/models/platform_rules.py. -/
structure PlatformRules where
  platform : PlatformType
  title_max_length : Nat
  tag_min_count : Nat
  tag_max_count : Nat
  content_style : ContentStyle
  style_guidelines : List String
  special_requirements : Option (List String) := none
  description_max_length : Option Nat := none
  caption_max_length : Option Nat := none
  post_max_length : Option Nat := none
  bio_max_length : Option Nat := none
  username_max_length : Option Nat := none
  profile_name_max_length : Option Nat := none
  comments_max_length : Option Nat := none
  headline_max_length : Option Nat := none
  about_max_length : Option Nat := none
  connection_message_max_length : Option Nat := none
  stream_category_max_length : Option Nat := none
  title_optimal_length : Option Nat := none
  description_optimal_length : Option Nat := none
  caption_optimal_length : Option Nat := none
  post_optimal_length : Option Nat := none
deriving DecidableEq

/-- VideoTranscript input model of app/models/content.py (the `metadata`
dict carries no validation logic and is not represented). -/
structure VideoTranscript where
  content : String
  title : Option String := none
  duration_seconds : Option Nat := none
  language : String := "en"
  video_category : Option String := none
deriving DecidableEq

/-- PlatformContent model of app/models/content.py (the generation
timestamp carries no validation logic and is not represented). -/
structure PlatformContent where
  platform : PlatformType
  title : String
  tags : List String
  confidence_score : ℚ
  meets_requirements : Bool := false
  validation_notes : List String := []
  description : Option String := none
  caption : Option String := none
  post_body : Option String := none
  bio : Option String := none
  username : Option String := none
  profile_name : Option String := none
  headline : Option String := none
  about_section : Option String := none
  connection_message : Option String := none
  stream_category : Option String := none
deriving DecidableEq

/-- Computed field `character_count` (length of the title). -/
def PlatformContent.character_count (c : PlatformContent) : Nat := c.title.length

/-- Computed field `tag_count`. -/
def PlatformContent.tag_count (c : PlatformContent) : Nat := c.tags.length

/-- ValidationSeverity enum of content_validator.py. -/
inductive ValidationSeverity where
  | error
  | warning
  | info
deriving DecidableEq

/-- Model of the dynamically typed (`Any`) diagnostic payloads carried in
`current_value` / `expected_value`. -/
inductive PyVal where
  | pint : Int → PyVal
  | pstr : String → PyVal
  | plist : List String → PyVal
  | pfloat : ℚ → PyVal
deriving DecidableEq

/-- ValidationIssue dataclass of content_validator.py. -/
structure ValidationIssue where
  field : String
  severity : ValidationSeverity
  message : String
  current_value : Option PyVal := none
  expected_value : Option PyVal := none
  suggestion : Option String := none
deriving DecidableEq

/-- ValidationResult dataclass of content_validator.py. -/
structure ValidationResult where
  is_valid : Bool
  score : ℚ
  issues : List ValidationIssue
  platform : PlatformType
  content : PlatformContent
deriving DecidableEq

/-- YouTubeRules() instance. -/
def youtube_rules : PlatformRules where
  platform := .youtube
  title_max_length := 100
  title_optimal_length := some 70
  description_max_length := some 5000
  description_optimal_length := some 157
  bio_max_length := some 1000
  comments_max_length := some 10000
  tag_min_count := 10
  tag_max_count := 15
  content_style := .educational_entertainment
  style_guidelines := [
    "Engaging and SEO-friendly titles",
    "Balance educational and entertainment value",
    "Use trending keywords for discoverability",
    "Clear, descriptive content that matches video topic"]
  special_requirements := some [
    "Focus on trending keywords",
    "Optimize for YouTube search algorithm",
    "Consider video thumbnail compatibility",
    "Title truncated after 70 chars in search results",
    "Description preview shows first 157 chars"]

/-- InstagramRules() instance. -/
def instagram_rules : PlatformRules where
  platform := .instagram
  title_max_length := 150
  caption_max_length := some 2200
  caption_optimal_length := some 125
  bio_max_length := some 150
  username_max_length := some 30
  profile_name_max_length := some 30
  comments_max_length := some 2200
  tag_min_count := 20
  tag_max_count := 30
  content_style := .visual_lifestyle
  style_guidelines := [
    "Visually appealing and lifestyle-focused",
    "Use mix of popular and niche hashtags",
    "Encourage engagement and interaction",
    "Visual-first content approach"]
  special_requirements := some [
    "Hashtag-heavy approach (20-30 tags)",
    "Mix trending and niche hashtags",
    "Consider Instagram Reels format",
    "Caption truncated after 125 chars with 'more' button",
    "Max 30 hashtags per post, optimal 5-10 for engagement"]

/-- FacebookRules() instance. -/
def facebook_rules : PlatformRules where
  platform := .facebook
  title_max_length := 255
  post_max_length := some 63206
  post_optimal_length := some 80
  bio_max_length := some 255
  headline_max_length := some 40
  tag_min_count := 3
  tag_max_count := 5
  content_style := .community_building
  style_guidelines := [
    "Engagement-focused and shareable",
    "Community-building approach",
    "Moderate hashtag usage",
    "Encourage comments and shares"]
  special_requirements := some [
    "Not hashtag-heavy (3-5 only)",
    "Focus on shareability",
    "Encourage community interaction",
    "Posts ≤80 chars get 66% higher engagement",
    "Algorithm favors shorter posts in news feed"]

/-- TikTokRules() instance. -/
def tiktok_rules : PlatformRules where
  platform := .tiktok
  title_max_length := 150
  caption_max_length := some 2200
  bio_max_length := some 80
  username_max_length := some 24
  comments_max_length := some 150
  tag_min_count := 3
  tag_max_count := 5
  content_style := .trend_focused
  style_guidelines := [
    "Trend-aware and catchy",
    "Gen-Z friendly language",
    "Viral potential focus",
    "Current trend integration"]
  special_requirements := some [
    "Use trending hashtags",
    "Consider current TikTok trends",
    "Appeal to younger demographics",
    "Max 30 hashtags within caption limit",
    "Optimal 3-5 hashtags for engagement"]

/-- XTwitterRules() instance. -/
def x_twitter_rules : PlatformRules where
  platform := .x_twitter
  title_max_length := 280
  post_max_length := some 280
  post_optimal_length := some 100
  bio_max_length := some 160
  username_max_length := some 15
  profile_name_max_length := some 50
  tag_min_count := 2
  tag_max_count := 3
  content_style := .concise_timely
  style_guidelines := [
    "Concise and timely",
    "Conversation-starting",
    "Hashtags integrated into text",
    "Current events awareness"]
  special_requirements := some [
    "280 character total limit (including hashtags)",
    "Hashtags integrated into main text",
    "Focus on current conversations",
    "Emojis count as 2 characters",
    "URLs count as 23 characters regardless of length",
    "Premium users get 25,000 character limit"]

/-- LinkedInRules() instance. -/
def linkedin_rules : PlatformRules where
  platform := .linkedin
  title_max_length := 210
  post_max_length := some 3000
  post_optimal_length := some 200
  headline_max_length := some 220
  about_max_length := some 2600
  comments_max_length := some 1250
  connection_message_max_length := some 300
  tag_min_count := 3
  tag_max_count := 5
  content_style := .professional
  style_guidelines := [
    "Professional and thought-leadership focused",
    "Industry-relevant content",
    "Professional networking approach",
    "Value-driven messaging"]
  special_requirements := some [
    "Professional tone mandatory",
    "Industry-specific hashtags",
    "Thought leadership angle",
    "Posts truncated at ~200 chars with 'See more'",
    "Professional keywords important for search"]

/-- TwitchRules() instance. -/
def twitch_rules : PlatformRules where
  platform := .twitch
  title_max_length := 140
  bio_max_length := some 300
  stream_category_max_length := some 50
  tag_min_count := 3
  tag_max_count := 8
  content_style := .gaming_community
  style_guidelines := [
    "Gaming and streaming focused",
    "Community-oriented",
    "Interactive content emphasis",
    "Gaming terminology usage"]
  special_requirements := some [
    "Gaming categories focus",
    "Community interaction emphasis",
    "Streaming-specific language",
    "Stream title should be descriptive of content",
    "Category selection affects discoverability"]

/-- get_platform_rules of app/models/platform_rules.py (the PLATFORM_RULES
table lookup; the platform enum is closed, so the lookup is total). -/
def get_platform_rules : PlatformType → PlatformRules
  | .youtube => youtube_rules
  | .instagram => instagram_rules
  | .facebook => facebook_rules
  | .tiktok => tiktok_rules
  | .x_twitter => x_twitter_rules
  | .linkedin => linkedin_rules
  | .twitch => twitch_rules

/-- Issue built by each optional-field character-limit check of
ContentValidator._validate_character_limits. -/
def limitIssue (fname msgLabel sugLabel : String) (n m : Nat) : ValidationIssue where
  field := fname
  severity := .error
  message := msgLabel ++ " exceeds maximum length"
  current_value := some (.pint n)
  expected_value := some (.pint m)
  suggestion := some ("Reduce " ++ sugLabel ++ " to " ++ toString m ++
    " characters or less")

/-- One optional-field character-limit check (`if content.f and rules.f_max:
if len > max: ERROR`) of _validate_character_limits. -/
def fieldLimitChunk (v : Option String) (lim : Option Nat)
    (fname msgLabel sugLabel : String) : List ValidationIssue :=
  if truthyS v && truthyN lim then
    if (optStr v).length > lim.getD 0 then
      [limitIssue fname msgLabel sugLabel (optStr v).length (lim.getD 0)]
    else []
  else []

/-- Title limit check of _validate_character_limits: over the max is an
ERROR, within 90% of the max is a WARNING. -/
def titleLimitChunk (c : PlatformContent) (rules : PlatformRules) :
    List ValidationIssue :=
  if c.character_count > rules.title_max_length then
    [{ field := "title", severity := .error,
       message := "Title exceeds maximum length",
       current_value := some (.pint c.character_count),
       expected_value := some (.pint rules.title_max_length),
       suggestion := some ("Reduce title to " ++
         toString rules.title_max_length ++ " characters or less") }]
  else if mkRat (9 * rules.title_max_length) 10 < (c.character_count : ℚ) then
    [{ field := "title", severity := .warning,
       message := "Title is very close to character limit",
       current_value := some (.pint c.character_count),
       expected_value := some (.pint rules.title_max_length),
       suggestion := some "Consider shortening for better display" }]
  else []

/-- X/Twitter total character-limit check of _validate_character_limits
(post text, or title when no post, plus one character per tag for the
separating space).  The X/Twitter rules always set `post_max_length`, so the
`none` branch is unreachable (the source reads the field unguarded). -/
def x_total_chunk (c : PlatformContent) (rules : PlatformRules) :
    List ValidationIssue :=
  if c.platform = PlatformType.x_twitter then
    let main_content := pyOrStr c.post_body c.title
    let total_chars := main_content.length + (c.tags.map (fun t => t.length + 1)).sum
    match rules.post_max_length with
    | some m =>
      if total_chars > m then
        [{ field := "total_content", severity := .error,
           message := "Total content (post + hashtags) exceeds character limit",
           current_value := some (.pint total_chars),
           expected_value := some (.pint m),
           suggestion := some "Reduce post length or number of hashtags" }]
      else []
    | none => []
  else []

/-- ContentValidator._validate_character_limits. -/
def validate_character_limits (c : PlatformContent) (rules : PlatformRules) :
    List ValidationIssue :=
  titleLimitChunk c rules
  ++ fieldLimitChunk c.description rules.description_max_length
      "description" "Description" "description"
  ++ fieldLimitChunk c.caption rules.caption_max_length
      "caption" "Caption" "caption"
  ++ fieldLimitChunk c.post_body rules.post_max_length
      "post_body" "Post body" "post body"
  ++ fieldLimitChunk c.bio rules.bio_max_length "bio" "Bio" "bio"
  ++ fieldLimitChunk c.username rules.username_max_length
      "username" "Username" "username"
  ++ fieldLimitChunk c.profile_name rules.profile_name_max_length
      "profile_name" "Profile name" "profile name"
  ++ fieldLimitChunk c.headline rules.headline_max_length
      "headline" "Headline" "headline"
  ++ fieldLimitChunk c.about_section rules.about_max_length
      "about_section" "About section" "about section"
  ++ fieldLimitChunk c.connection_message rules.connection_message_max_length
      "connection_message" "Connection message" "connection message"
  ++ x_total_chunk c rules

/-- ContentValidator._validate_optimal_lengths. -/
def validate_optimal_lengths (c : PlatformContent) (rules : PlatformRules) :
    List ValidationIssue :=
  if c.platform = PlatformType.youtube then
    (if truthyN rules.title_optimal_length &&
        decide (c.character_count > rules.title_optimal_length.getD 0) then
      [{ field := "title", severity := .warning,
         message := "Title may be truncated in YouTube search results",
         current_value := some (.pint c.character_count),
         expected_value := some (.pstr ("≤" ++
           toString (rules.title_optimal_length.getD 0) ++ " chars")),
         suggestion := some ("Keep title under " ++
           toString (rules.title_optimal_length.getD 0) ++
           " characters for full visibility") }]
    else [])
    ++ (if truthyS c.description && truthyN rules.description_optimal_length then
      if (optStr c.description).length > rules.description_optimal_length.getD 0 then
        let first_part :=
          pySlice (optStr c.description) (rules.description_optimal_length.getD 0)
        if !(["tutorial", "learn", "guide", "how"].any
            (fun kw => pyIn kw (strLower first_part))) then
          [{ field := "description", severity := .info,
             message := "Important content should be in first 157 characters",
             current_value := some (.pint (optStr c.description).length),
             expected_value := some (.pstr ("Key info in first " ++
               toString (rules.description_optimal_length.getD 0) ++ " chars")),
             suggestion := some
               "Move key information to the beginning of description" }]
        else []
      else []
    else [])
  else if c.platform = PlatformType.instagram then
    if truthyS c.caption && truthyN rules.caption_optimal_length then
      if (optStr c.caption).length > rules.caption_optimal_length.getD 0 then
        [{ field := "caption", severity := .warning,
           message := "Caption will be truncated with 'more' button",
           current_value := some (.pint (optStr c.caption).length),
           expected_value := some (.pstr ("≤" ++
             toString (rules.caption_optimal_length.getD 0) ++ " chars")),
           suggestion := some ("Keep key message in first " ++
             toString (rules.caption_optimal_length.getD 0) ++ " characters") }]
      else []
    else []
  else if c.platform = PlatformType.facebook then
    if truthyS c.post_body && truthyN rules.post_optimal_length then
      if (optStr c.post_body).length > rules.post_optimal_length.getD 0 then
        [{ field := "post_body", severity := .info,
           message := "Shorter posts get 66% higher engagement on Facebook",
           current_value := some (.pint (optStr c.post_body).length),
           expected_value := some (.pstr ("≤" ++
             toString (rules.post_optimal_length.getD 0) ++ " chars")),
           suggestion := some ("Consider shortening to " ++
             toString (rules.post_optimal_length.getD 0) ++
             " characters or less") }]
      else []
    else []
  else if c.platform = PlatformType.x_twitter then
    let main_content := pyOrStr c.post_body c.title
    if truthyN rules.post_optimal_length &&
        decide (main_content.length > rules.post_optimal_length.getD 0) then
      [{ field := if truthyS c.post_body then "post_body" else "title",
         severity := .info,
         message := "Shorter tweets get 17% higher engagement",
         current_value := some (.pint main_content.length),
         expected_value := some (.pstr ("≤" ++
           toString (rules.post_optimal_length.getD 0) ++ " chars")),
         suggestion := some ("Consider shortening to under " ++
           toString (rules.post_optimal_length.getD 0) ++ " characters") }]
    else []
  else if c.platform = PlatformType.linkedin then
    if truthyS c.post_body && truthyN rules.post_optimal_length then
      if (optStr c.post_body).length > rules.post_optimal_length.getD 0 then
        [{ field := "post_body", severity := .warning,
           message := "Post will be truncated with 'See more' link",
           current_value := some (.pint (optStr c.post_body).length),
           expected_value := some (.pstr ("≤" ++
             toString (rules.post_optimal_length.getD 0) ++ " chars")),
           suggestion := some ("Keep key message in first " ++
             toString (rules.post_optimal_length.getD 0) ++ " characters") }]
      else []
    else []
  else []

/-- ContentValidator._validate_tag_count. -/
def validate_tag_count (c : PlatformContent) (rules : PlatformRules) :
    List ValidationIssue :=
  if c.tag_count < rules.tag_min_count then
    [{ field := "tags", severity := .error, message := "Too few tags",
       current_value := some (.pint c.tag_count),
       expected_value := some (.pstr (toString rules.tag_min_count ++ "-" ++
         toString rules.tag_max_count)),
       suggestion := some ("Add " ++
         toString (rules.tag_min_count - c.tag_count) ++
         " more relevant tags") }]
  else if c.tag_count > rules.tag_max_count then
    [{ field := "tags", severity := .error, message := "Too many tags",
       current_value := some (.pint c.tag_count),
       expected_value := some (.pstr (toString rules.tag_min_count ++ "-" ++
         toString rules.tag_max_count)),
       suggestion := some ("Remove " ++
         toString (c.tag_count - rules.tag_max_count) ++ " tags") }]
  else []

/-- ContentValidator._validate_content_quality. -/
def validate_content_quality (c : PlatformContent) (_rules : PlatformRules) :
    List ValidationIssue :=
  (if (pyStrip c.title).length < 10 then
    [{ field := "title", severity := .error,
       message := "Title too short to be engaging",
       current_value := some (.pint (pyStrip c.title).length),
       expected_value := some (.pstr "10+ characters"),
       suggestion := some "Create a more descriptive, engaging title" }]
  else [])
  ++ (if (dedupFirst (c.tags.map strLower)).length < c.tags.length then
    [{ field := "tags", severity := .warning,
       message := "Duplicate hashtags detected",
       current_value := some (.pint c.tags.length),
       expected_value := some (.pint (dedupFirst (c.tags.map strLower)).length),
       suggestion := some "Remove duplicate hashtags for better reach" }]
  else [])
  ++ (let malformed_tags :=
        c.tags.filter (fun tag => !pyStartsWith "#" tag || tag.length ≤ 1)
      if !malformed_tags.isEmpty then
        [{ field := "tags", severity := .error,
           message := "Malformed hashtags detected",
           current_value := some (.plist malformed_tags),
           suggestion := some "Ensure all tags start with # and have content" }]
      else [])
  ++ (if c.confidence_score < mkRat 6 10 then
    [{ field := "confidence", severity := .warning,
       message := "Low AI confidence in generated content",
       current_value := some (.pfloat c.confidence_score),
       expected_value := some (.pstr "0.6+"),
       suggestion := some "Consider regenerating content for better quality" }]
  else [])

/-- ContentValidator._validate_platform_specific. -/
def validate_platform_specific (c : PlatformContent) (_rules : PlatformRules) :
    List ValidationIssue :=
  if c.platform = PlatformType.linkedin then
    let casual_indicators :=
      ["hey", "guys", "lol", "omg", "awesome", "epic", "cool", "dude"]
    let professional_text := strLower (c.title ++ " " ++
      c.post_body.getD "" ++ " " ++ c.headline.getD "")
    let found_casual :=
      casual_indicators.filter (fun word => pyIn word professional_text)
    (if !found_casual.isEmpty then
      [{ field := "tone", severity := .warning,
         message := "Content may be too casual for LinkedIn",
         current_value := some (.plist found_casual),
         suggestion := some "Use more professional language" }]
    else [])
    ++ (if !truthyS c.post_body || (pyStrip (optStr c.post_body)).length < 50 then
      [{ field := "post_body", severity := .warning,
         message := "LinkedIn favors substantial content",
         current_value := some (.pint
           (if truthyS c.post_body then (optStr c.post_body).length else 0)),
         expected_value := some (.pstr "50+ characters"),
         suggestion := some
           "Add more detailed, valuable content for better engagement" }]
    else [])
    ++ (if truthyS c.headline &&
          !(["|", "•", "-"].any (fun sep => pyIn sep (optStr c.headline))) then
      [{ field := "headline", severity := .info,
         message := "Professional headlines often use separators",
         suggestion := some "Consider using | or • to separate roles/skills" }]
    else [])
  else if c.platform = PlatformType.tiktok then
    let trending_tags := ["#fyp", "#viral", "#trending", "#foryou", "#foryoupage"]
    (if !(c.tags.any (fun tag =>
        (trending_tags.map strLower).contains (strLower tag))) then
      [{ field := "tags", severity := .info,
         message := "Consider adding trending TikTok hashtags",
         suggestion := some "Add #fyp, #viral, or #trending for better reach" }]
    else [])
    ++ (if truthyS c.caption && decide ((optStr c.caption).length > 100) then
      [{ field := "caption", severity := .info,
         message := "TikTok favors short, punchy captions",
         current_value := some (.pint (optStr c.caption).length),
         expected_value := some (.pstr "≤100 chars"),
         suggestion := some "Keep captions brief and engaging" }]
    else [])
  else if c.platform = PlatformType.instagram then
    let caption_text := pyOrStr c.caption c.title
    (if !("😀🎯✨🌟💫🔥💯🚀💖🌈👆📸💻".toList.any
        (fun ch => caption_text.toList.contains ch)) then
      [{ field := "visual_appeal", severity := .info,
         message := "Consider adding emojis for better visual appeal",
         suggestion := some "Add relevant emojis to increase engagement" }]
    else [])
    ++ (if c.tags.length < 10 then
      [{ field := "tags", severity := .info,
         message := "Instagram posts perform better with 10+ hashtags",
         current_value := some (.pint c.tags.length),
         expected_value := some (.pstr "10-20 hashtags"),
         suggestion := some "Add more relevant hashtags for better reach" }]
    else [])
  else if c.platform = PlatformType.youtube then
    (if truthyS c.description && decide ((optStr c.description).length < 100) then
      [{ field := "description", severity := .warning,
         message := "YouTube descriptions should be detailed for SEO",
         current_value := some (.pint (optStr c.description).length),
         expected_value := some (.pstr "100+ characters"),
         suggestion := some
           "Add more detailed description for better discoverability" }]
    else [])
    ++ (if !c.title.isEmpty &&
          !(["tutorial", "guide", "how to", "learn", "tips"].any
            (fun keyword => pyIn keyword (strLower c.title))) then
      [{ field := "title", severity := .info,
         message := "Consider adding educational keywords for YouTube SEO",
         suggestion := some
           "Include words like 'tutorial', 'guide', or 'how to'" }]
    else [])
  else if c.platform = PlatformType.facebook then
    if truthyS c.post_body &&
        !(["what", "how", "why", "thoughts", "opinion", "?"].any
          (fun word => pyIn word (strLower (optStr c.post_body)))) then
      [{ field := "post_body", severity := .info,
         message := "Facebook favors posts that encourage interaction",
         suggestion := some "Consider adding a question or call for opinions" }]
    else []
  else if c.platform = PlatformType.x_twitter then
    let main_content := pyOrStr c.post_body c.title
    if !(["thread", "breaking", "just", "new"].any
        (fun word => pyIn word (strLower main_content))) then
      [{ field := "timing", severity := .info,
         message := "Twitter favors timely, immediate content",
         suggestion := some "Consider adding urgency or timeliness indicators" }]
    else []
  else if c.platform = PlatformType.twitch then
    if truthyS c.stream_category &&
        !((pySplitWs (strLower (optStr c.stream_category))).any
          (fun word => pyIn word (strLower c.title))) then
      [{ field := "title", severity := .warning,
         message := "Stream title should relate to the category",
         current_value := some (.pstr (optStr c.stream_category)),
         suggestion := some "Include category-related keywords in title" }]
    else []
  else []

/-- The six scoring dimensions of ContentValidator._calculate_quality_score. -/
structure Scores where
  character_limits : ℚ
  tag_optimization : ℚ
  content_completeness : ℚ
  platform_optimization : ℚ
  engagement_potential : ℚ
  optimal_lengths : ℚ
deriving DecidableEq

/-- All dimensions start at 100. -/
def initScores : Scores := ⟨100, 100, 100, 100, 100, 100⟩

/-- Deduction per issue severity (ERROR 30, WARNING 15, INFO 8). -/
def issueDeduction : ValidationSeverity → ℚ
  | .error => 30
  | .warning => 15
  | .info => 8

/-- The record text fields whose issues are routed to the character-limits,
optimal-lengths or platform-optimization dimensions. -/
def textFields : List String :=
  ["title", "description", "caption", "post_body", "bio", "username",
   "profile_name", "headline", "about_section", "connection_message"]

/-- One step of the deduction loop of _calculate_quality_score. -/
def applyDeduction (s : Scores) (issue : ValidationIssue) : Scores :=
  let deduction := issueDeduction issue.severity
  if issue.field ∈ textFields then
    if pyIn "character" (strLower issue.message) ||
        pyIn "length" (strLower issue.message) then
      { s with character_limits := s.character_limits - deduction }
    else if pyIn "optimal" (strLower issue.message) ||
        pyIn "truncat" (strLower issue.message) then
      { s with optimal_lengths := s.optimal_lengths - deduction }
    else
      { s with platform_optimization := s.platform_optimization - deduction }
  else if issue.field = "tags" then
    { s with tag_optimization := s.tag_optimization - deduction }
  else if issue.field ∈ ["tone", "visual_appeal", "timing"] then
    { s with engagement_potential := s.engagement_potential - deduction }
  else
    { s with platform_optimization := s.platform_optimization - deduction }

/-- ContentValidator._get_relevant_fields_for_platform. -/
def get_relevant_fields_for_platform : PlatformType → List String
  | .youtube => ["title", "tags", "description"]
  | .instagram => ["title", "tags", "caption"]
  | .facebook => ["title", "tags", "post_body"]
  | .tiktok => ["title", "tags", "caption"]
  | .x_twitter => ["title", "tags", "post_body"]
  | .linkedin => ["title", "tags", "post_body", "headline"]
  | .twitch => ["title", "tags", "stream_category"]

/-- Python `hasattr(content, field) and getattr(content, field)` for the
field names occurring in the relevant-fields lists. -/
def fieldPopulated (c : PlatformContent) : String → Bool
  | "title" => !c.title.isEmpty
  | "tags" => !c.tags.isEmpty
  | "description" => truthyS c.description
  | "caption" => truthyS c.caption
  | "post_body" => truthyS c.post_body
  | "headline" => truthyS c.headline
  | "stream_category" => truthyS c.stream_category
  | _ => false

/-- Clamp of a scoring dimension (and of the final score) to [0, 100]. -/
def clampScore (q : ℚ) : ℚ := max 0 (min 100 q)

/-- ContentValidator._calculate_quality_score: per-dimension deductions from
the issues, bonus adjustments, then the weighted clamped sum. -/
def calculate_quality_score (c : PlatformContent) (rules : PlatformRules)
    (issues : List ValidationIssue) : ℚ :=
  let s0 := issues.foldl applyDeduction initScores
  let relevant_fields := get_relevant_fields_for_platform c.platform
  let populated_fields := (relevant_fields.filter (fieldPopulated c)).length
  let s1 :=
    if !relevant_fields.isEmpty then
      { s0 with content_completeness :=
          50 + ((populated_fields : ℚ) / (relevant_fields.length : ℚ)) * 50 }
    else s0
  let tag_range : ℚ := (rules.tag_max_count : ℚ) - (rules.tag_min_count : ℚ)
  let s2 :=
    if 0 < tag_range then
      let optimal_tags : ℚ := (rules.tag_min_count : ℚ) + tag_range * mkRat 7 10
      if |(c.tag_count : ℚ) - optimal_tags| ≤ 2 then
        { s1 with tag_optimization := s1.tag_optimization + 10 }
      else s1
    else s1
  let title_utilization : ℚ :=
    (c.character_count : ℚ) / (rules.title_max_length : ℚ)
  let s3 :=
    if mkRat 7 10 ≤ title_utilization ∧ title_utilization ≤ mkRat 9 10 then
      { s2 with character_limits := s2.character_limits + 5 }
    else s2
  let s4 :=
    if mkRat 9 10 ≤ c.confidence_score then
      { s3 with engagement_potential := s3.engagement_potential + 15 }
    else if mkRat 8 10 ≤ c.confidence_score then
      { s3 with engagement_potential := s3.engagement_potential + 10 }
    else if mkRat 7 10 ≤ c.confidence_score then
      { s3 with engagement_potential := s3.engagement_potential + 5 }
    else s3
  let s5 :=
    if c.platform = PlatformType.instagram ∧ c.tags.length ≥ 15 then
      { s4 with platform_optimization := s4.platform_optimization + 10 }
    else if c.platform = PlatformType.linkedin ∧ truthyS c.headline then
      { s4 with platform_optimization := s4.platform_optimization + 10 }
    else if c.platform = PlatformType.youtube ∧ truthyS c.description ∧
        (optStr c.description).length ≥ 200 then
      { s4 with platform_optimization := s4.platform_optimization + 10 }
    else s4
  let final_score :=
    clampScore s5.character_limits * mkRat 25 100
    + clampScore s5.tag_optimization * mkRat 20 100
    + clampScore s5.content_completeness * mkRat 20 100
    + clampScore s5.platform_optimization * mkRat 15 100
    + clampScore s5.engagement_potential * mkRat 10 100
    + clampScore s5.optimal_lengths * mkRat 10 100
  clampScore final_score

/-- The issue list accumulated by ContentValidator.validate_content: the
five checking stages extended in source order (named separately so that
statements about the verdict need not re-expand the stages). -/
def content_issues (c : PlatformContent) (rules : PlatformRules) :
    List ValidationIssue :=
  validate_character_limits c rules
  ++ validate_tag_count c rules
  ++ validate_content_quality c rules
  ++ validate_optimal_lengths c rules
  ++ validate_platform_specific c rules

/-- The `error_count` computed by validate_content: the number of issues of
ERROR severity. -/
def error_count_of (issues : List ValidationIssue) : Nat :=
  (issues.filter (fun issue => issue.severity = ValidationSeverity.error)).length

/-- ContentValidator.validate_content: the five checking stages in source
order, the strict/lenient verdict over the error count, and the quality
score. -/
def validate_content (c : PlatformContent) (strict_mode : Bool := true) :
    ValidationResult :=
  let rules := get_platform_rules c.platform
  let issues := content_issues c rules
  let error_count := error_count_of issues
  let is_valid :=
    if strict_mode then decide (error_count = 0) else decide (error_count ≤ 1)
  { is_valid := is_valid
    score := calculate_quality_score c rules issues
    issues := issues
    platform := c.platform
    content := c }

/-- ContentValidator.suggest_improvements. -/
def suggest_improvements (validation_result : ValidationResult) : List String :=
  let suggestions := validation_result.issues.foldl (fun acc issue =>
    match issue.suggestion with
    | some s => acc ++ [pyTitleStr issue.field ++ ": " ++ s]
    | none => acc) []
  let suggestions :=
    if validation_result.score < 80 then
      suggestions ++ ["Consider regenerating content for higher quality"]
    else suggestions
  if validation_result.content.confidence_score < mkRat 7 10 then
    suggestions ++ ["Low AI confidence - try different tone or keywords"]
  else suggestions

/-- A note of PlatformContent.validate_against_platform_rules for an
exceeded field limit. -/
def qcLimitNote (label : String) (n m : Nat) : String :=
  label ++ " exceeds maximum length (" ++ toString n ++ "/" ++ toString m ++ ")"

/-- One optional-field check of validate_against_platform_rules. -/
def qcFieldChunk (v : Option String) (lim : Option Nat) (label : String) :
    List String :=
  if truthyS v && truthyN lim then
    if (optStr v).length > lim.getD 0 then
      [qcLimitNote label (optStr v).length (lim.getD 0)]
    else []
  else []

/-- The validation notes accumulated by validate_against_platform_rules, in
source order.  Each failing check of the source appends exactly one note and
clears the running `meets_requirements` flag, so the flag equals emptiness
of the notes. -/
def qcNotes (c : PlatformContent) (rules : PlatformRules) : List String :=
  (if c.character_count > rules.title_max_length then
    [qcLimitNote "Title" c.character_count rules.title_max_length]
  else [])
  ++ qcFieldChunk c.description rules.description_max_length "Description"
  ++ qcFieldChunk c.caption rules.caption_max_length "Caption"
  ++ qcFieldChunk c.post_body rules.post_max_length "Post body"
  ++ qcFieldChunk c.bio rules.bio_max_length "Bio"
  ++ qcFieldChunk c.username rules.username_max_length "Username"
  ++ qcFieldChunk c.profile_name rules.profile_name_max_length "Profile name"
  ++ qcFieldChunk c.headline rules.headline_max_length "Headline"
  ++ qcFieldChunk c.about_section rules.about_max_length "About section"
  ++ qcFieldChunk c.connection_message rules.connection_message_max_length
      "Connection message"
  ++ (if c.tag_count < rules.tag_min_count then
      ["Too few tags (" ++ toString c.tag_count ++ "/" ++
        toString rules.tag_min_count ++ " minimum)"]
    else if c.tag_count > rules.tag_max_count then
      ["Too many tags (" ++ toString c.tag_count ++ "/" ++
        toString rules.tag_max_count ++ " maximum)"]
    else [])
  ++ (if c.platform = PlatformType.x_twitter then
      let content_text := pyOrStr c.post_body c.title
      let total_chars :=
        content_text.length + (c.tags.map (fun t => t.length + 1)).sum
      match rules.post_max_length with
      | some m =>
        if total_chars > m then
          ["Total content exceeds character limit (" ++ toString total_chars ++
            "/" ++ toString m ++ ")"]
        else []
      | none => []
    else [])

/-- PlatformContent.validate_against_platform_rules of app/models/content.py.
The source mutates the record (`meets_requirements`, `validation_notes`) and
returns the flag; the model returns the updated record next to the flag. -/
def validate_against_platform_rules (c : PlatformContent)
    (rules : PlatformRules) : PlatformContent × Bool :=
  let validation_notes := qcNotes c rules
  let meets_requirements := validation_notes.isEmpty
  ({ c with meets_requirements := meets_requirements,
            validation_notes := validation_notes },
   meets_requirements)

/-- The word-boundary truncation loop of ContentValidator._create_fallback_title
(`for word in words: ... else: break`): accumulate words while the running
text stays within `max_len`. -/
def takeWordsUpTo (max_len : Int) : List String → String → String
  | [], truncated => truncated
  | word :: ws, truncated =>
    if ((truncated ++ word ++ " ").length : Int) ≤ max_len then
      takeWordsUpTo max_len ws (truncated ++ word ++ " ")
    else truncated

/-- ContentValidator._create_fallback_title.  `title_max_length` is a
required `int`, so its Python truthiness is `≠ 0`; `max_len` is computed
with Python integer subtraction, hence over `Int`. -/
def create_fallback_title (transcript : VideoTranscript)
    (rules : PlatformRules) (char_issues : List ValidationIssue) : String :=
  let base_title := pyOrStr transcript.title "Video Content"
  let base_title :=
    if !char_issues.isEmpty && rules.title_max_length != 0 then
      let max_len : Int := (rules.title_max_length : Int) - 3
      if (base_title.length : Int) > max_len then
        pyStrip (takeWordsUpTo max_len (pySplitWs base_title) "") ++ "..."
      else base_title
    else base_title
  if rules.title_max_length ≠ 0 then pySlice base_title rules.title_max_length
  else base_title

/-- The fixed generic tag pool of ContentValidator._create_fallback_tags. -/
def generic_tags : List String :=
  ["#content", "#video", "#social", "#media", "#digital"]

/-- The body of the inner `for` loop of _create_fallback_tags: append the
generic tag when it is not yet present and the list is still below the
minimum. -/
def padStep (min_count : Nat) (acc : List String) (tag : String) :
    List String :=
  if !(acc.contains tag) && acc.length < min_count then acc ++ [tag] else acc

/-- One pass of the `while len(tags) < tag_min_count` loop body of
_create_fallback_tags: the inner `for` over the generic pool. -/
def padTagsOnce (min_count : Nat) (tags : List String) : List String :=
  generic_tags.foldl (padStep min_count) tags

/-- ContentValidator._create_fallback_tags.  The source runs
`while len(tags) < tag_min_count` around the generic-tag pass; a second pass
can never add a tag the first pass did not (every generic tag is already
present, see `padTagsOnce_fixpoint`), so when one pass does not reach the
minimum the source loops forever — modelled as `none`. -/
def create_fallback_tags (transcript : VideoTranscript)
    (rules : PlatformRules) (_tag_issues : List ValidationIssue) :
    Option (List String) :=
  let words := pySplitWs (strLower transcript.content)
  let common_words :=
    ["the", "and", "or", "but", "in", "on", "at", "to", "for", "of", "with", "by"]
  let keywords := words.filter (fun word =>
    word.length > 3 && !(common_words.contains word))
  let unique_keywords := (dedupFirst keywords).take rules.tag_max_count
  let tags := unique_keywords.map (fun keyword => "#" ++ keyword)
  if tags.length ≥ rules.tag_min_count then some (tags.take rules.tag_max_count)
  else
    let padded := padTagsOnce rules.tag_min_count tags
    if padded.length ≥ rules.tag_min_count then
      some (padded.take rules.tag_max_count)
    else none

/-- Fuel-indexed form of the `while len(minimal_tags) < tag_min_count`
padding loop of ContentValidator._create_minimal_content: every pass
appends exactly one indexed tag, so `min_count` passes always suffice. -/
def padMinimalAux (min_count : Nat) : Nat → List String → List String
  | 0, tags => tags
  | fuel + 1, tags =>
    if tags.length < min_count then
      padMinimalAux min_count fuel (tags ++ ["#tag" ++ toString tags.length])
    else tags

/-- The `while len(minimal_tags) < tag_min_count` padding loop of
ContentValidator._create_minimal_content (each pass grows the list by one,
so `min_count` units of fuel reach the fixed point). -/
def padMinimalTags (min_count : Nat) (tags : List String) : List String :=
  padMinimalAux min_count min_count tags

/-- ContentValidator._create_minimal_content (the transcript parameter is
unused by the source as well). -/
def create_minimal_content (platform : PlatformType)
    (_transcript : VideoTranscript) : PlatformContent :=
  let rules := get_platform_rules platform
  let minimal_title := pySlice "Video Content" rules.title_max_length
  let minimal_tags := padMinimalTags rules.tag_min_count ["#content"]
  { platform := platform
    title := minimal_title
    tags := minimal_tags.take rules.tag_max_count
    confidence_score := mkRat 3 10 }

/-- ContentValidator.create_fallback_content.  Returns `none` exactly when
the tag-padding loop of _create_fallback_tags diverges. -/
def create_fallback_content (platform : PlatformType)
    (transcript : VideoTranscript) (original_validation : ValidationResult) :
    Option PlatformContent :=
  let rules := get_platform_rules platform
  let char_issues := original_validation.issues.filter (fun issue =>
    issue.field == "title" && pyIn "character" (strLower issue.message))
  let tag_issues := original_validation.issues.filter (fun issue =>
    issue.field == "tags")
  let fallback_title := create_fallback_title transcript rules char_issues
  match create_fallback_tags transcript rules tag_issues with
  | none => none
  | some fallback_tags =>
    let fallback_content : PlatformContent :=
      { platform := platform
        title := fallback_title
        tags := fallback_tags
        confidence_score := mkRat 6 10 }
    let fallback_validation := validate_content fallback_content false
    if fallback_validation.is_valid then some fallback_content
    else some (create_minimal_content platform transcript)

/-!  Lemmas.  The `any`/membership analysis below locates each kind of
issue inside the stage that produces it and shows no other stage can. -/

lemma any_ite {α : Type} (c : Prop) [Decidable c] (l1 l2 : List α)
    (p : α → Bool) :
    (if c then l1 else l2).any p = if c then l1.any p else l2.any p := by
  split <;> rfl

lemma isLeading_take (n p s : List Char) (h : isLeading n (p ++ s) = true) :
    isLeading (n.take p.length) p = true := by
  induction p generalizing n s with
  | nil => simp [isLeading]
  | cons b p' ih =>
    cases n with
    | nil => simp [isLeading]
    | cons a n' =>
      simp only [isLeading, List.cons_append, Bool.and_eq_true] at h
      simp only [List.length_cons, List.take_succ_cons, isLeading,
        Bool.and_eq_true]
      exact ⟨h.1, ih n' s h.2⟩

lemma isLeading_append_false (n p s : List Char)
    (h : isLeading (n.take p.length) p = false) :
    isLeading n (p ++ s) = false := by
  cases hc : isLeading n (p ++ s) with
  | false => rfl
  | true => rw [isLeading_take n p s hc] at h; exact absurd h (by simp)

lemma isLeading_append_true (n p s : List Char) (h : isLeading n p = true) :
    isLeading n (p ++ s) = true := by
  induction n generalizing p with
  | nil => simp [isLeading]
  | cons a n' ih =>
    cases p with
    | nil => simp [isLeading] at h
    | cons b p' =>
      simp only [isLeading, Bool.and_eq_true] at h
      simp only [List.cons_append, isLeading, Bool.and_eq_true]
      exact ⟨h.1, ih p' h.2⟩

/-- The `total_content` ERROR of the X/Twitter special case. -/
def isTotalIssue (i : ValidationIssue) : Bool :=
  decide (i.field = "total_content") &&
    decide (i.severity = ValidationSeverity.error)

/-- The X/Twitter total character count: main text (post body when truthy,
else title) plus `len(tag) + 1` per tag. -/
def totalXChars (c : PlatformContent) : Nat :=
  (pyOrStr c.post_body c.title).length + (c.tags.map (fun t => t.length + 1)).sum

lemma tag_stage_no_total (c : PlatformContent) (r : PlatformRules) :
    (validate_tag_count c r).any isTotalIssue = false := by
  unfold validate_tag_count
  split_ifs <;> simp [isTotalIssue]

lemma quality_stage_no_total (c : PlatformContent) (r : PlatformRules) :
    (validate_content_quality c r).any isTotalIssue = false := by
  unfold validate_content_quality
  simp only [List.any_append, any_ite]
  split_ifs <;> simp [isTotalIssue]

lemma optimal_stage_no_total (c : PlatformContent) (r : PlatformRules) :
    (validate_optimal_lengths c r).any isTotalIssue = false := by
  unfold validate_optimal_lengths
  split_ifs <;> simp [isTotalIssue, any_ite]

lemma platform_stage_no_total (c : PlatformContent) (r : PlatformRules) :
    (validate_platform_specific c r).any isTotalIssue = false := by
  unfold validate_platform_specific
  split_ifs <;> simp [isTotalIssue, any_ite]

lemma fieldLimitChunk_any (v : Option String) (lim : Option Nat)
    (fname msgLabel sugLabel : String) (p : ValidationIssue → Bool) :
    (fieldLimitChunk v lim fname msgLabel sugLabel).any p =
      ((truthyS v && truthyN lim &&
          decide ((optStr v).length > lim.getD 0)) &&
        p (limitIssue fname msgLabel sugLabel (optStr v).length (lim.getD 0))) := by
  unfold fieldLimitChunk
  split_ifs <;> simp_all

lemma char_stage_any_total (c : PlatformContent) (r : PlatformRules) :
    (validate_character_limits c r).any isTotalIssue =
      (x_total_chunk c r).any isTotalIssue := by
  unfold validate_character_limits titleLimitChunk
  simp [List.any_append, fieldLimitChunk_any, isTotalIssue, limitIssue, any_ite]

lemma x_chunk_total_iff (c : PlatformContent)
    (h : c.platform = PlatformType.x_twitter) :
    ((x_total_chunk c (get_platform_rules c.platform)).any isTotalIssue = true)
      ↔ 280 < totalXChars c := by
  rw [h]
  unfold x_total_chunk
  rw [h]
  simp only [get_platform_rules, x_twitter_rules]
  split_ifs with h1 h2 <;> simp_all [isTotalIssue, totalXChars]

lemma issues_any_total_iff (c : PlatformContent) (m : Bool)
    (h : c.platform = PlatformType.x_twitter) :
    ((validate_content c m).issues.any isTotalIssue = true) ↔
      280 < totalXChars c := by
  have hiss : (validate_content c m).issues =
      validate_character_limits c (get_platform_rules c.platform)
      ++ validate_tag_count c (get_platform_rules c.platform)
      ++ validate_content_quality c (get_platform_rules c.platform)
      ++ validate_optimal_lengths c (get_platform_rules c.platform)
      ++ validate_platform_specific c (get_platform_rules c.platform) := rfl
  rw [hiss]
  simp only [List.any_append, char_stage_any_total, tag_stage_no_total,
    quality_stage_no_total, optimal_stage_no_total, platform_stage_no_total,
    Bool.or_false, Bool.false_or]
  exact x_chunk_total_iff c h

/-- A total-content failure note of the quick-check. -/
def isTotalNote (note : String) : Bool :=
  pyStartsWith "Total content exceeds character limit" note

lemma isTotalNote_append (p rest : String)
    (h : isLeading ("Total content exceeds character limit".toList.take
      p.toList.length) p.toList = false) :
    isTotalNote (p ++ rest) = false := by
  unfold isTotalNote pyStartsWith
  show isLeading _ ((p ++ rest).data) = false
  rw [String.data_append]
  exact isLeading_append_false _ _ _ h

lemma isTotalNote_append_true (p rest : String)
    (h : isLeading "Total content exceeds character limit".toList
      p.toList = true) :
    isTotalNote (p ++ rest) = true := by
  unfold isTotalNote pyStartsWith
  show isLeading _ ((p ++ rest).data) = true
  rw [String.data_append]
  exact isLeading_append_true _ _ _ h

lemma isTotalNote_qcLimitNote (lbl : String) (n m : Nat)
    (h : isLeading ("Total content exceeds character limit".toList.take
      lbl.toList.length) lbl.toList = false) :
    isTotalNote (qcLimitNote lbl n m) = false := by
  unfold qcLimitNote
  simp only [String.append_assoc]
  exact isTotalNote_append _ _ h

lemma qcFieldChunk_any (v : Option String) (lim : Option Nat) (lbl : String)
    (p : String → Bool) :
    (qcFieldChunk v lim lbl).any p =
      ((truthyS v && truthyN lim &&
          decide ((optStr v).length > lim.getD 0)) &&
        p (qcLimitNote lbl (optStr v).length (lim.getD 0))) := by
  unfold qcFieldChunk
  split_ifs <;> simp_all

lemma qc_total_iff (c : PlatformContent)
    (h : c.platform = PlatformType.x_twitter) :
    (((validate_against_platform_rules c
        (get_platform_rules c.platform)).1.validation_notes).any isTotalNote
      = true) ↔ 280 < totalXChars c := by
  have hnotes : (validate_against_platform_rules c
      (get_platform_rules c.platform)).1.validation_notes =
      qcNotes c (get_platform_rules c.platform) := rfl
  rw [hnotes]
  unfold qcNotes
  rw [h]
  have hD : ∀ n m, isTotalNote (qcLimitNote "Description" n m) = false :=
    fun n m => isTotalNote_qcLimitNote _ n m (by decide)
  have hC : ∀ n m, isTotalNote (qcLimitNote "Caption" n m) = false :=
    fun n m => isTotalNote_qcLimitNote _ n m (by decide)
  have hP : ∀ n m, isTotalNote (qcLimitNote "Post body" n m) = false :=
    fun n m => isTotalNote_qcLimitNote _ n m (by decide)
  have hB : ∀ n m, isTotalNote (qcLimitNote "Bio" n m) = false :=
    fun n m => isTotalNote_qcLimitNote _ n m (by decide)
  have hU : ∀ n m, isTotalNote (qcLimitNote "Username" n m) = false :=
    fun n m => isTotalNote_qcLimitNote _ n m (by decide)
  have hPr : ∀ n m, isTotalNote (qcLimitNote "Profile name" n m) = false :=
    fun n m => isTotalNote_qcLimitNote _ n m (by decide)
  have hH : ∀ n m, isTotalNote (qcLimitNote "Headline" n m) = false :=
    fun n m => isTotalNote_qcLimitNote _ n m (by decide)
  have hA : ∀ n m, isTotalNote (qcLimitNote "About section" n m) = false :=
    fun n m => isTotalNote_qcLimitNote _ n m (by decide)
  have hCo : ∀ n m, isTotalNote (qcLimitNote "Connection message" n m) = false :=
    fun n m => isTotalNote_qcLimitNote _ n m (by decide)
  have hT : ∀ n m, isTotalNote (qcLimitNote "Title" n m) = false :=
    fun n m => isTotalNote_qcLimitNote _ n m (by decide)
  have hTF : ∀ a b : String, isTotalNote ("Too few tags (" ++ a ++ "/" ++ b ++
      " minimum)") = false := by
    intro a b
    simp only [String.append_assoc]
    exact isTotalNote_append _ _ (by decide)
  have hTM : ∀ a b : String, isTotalNote ("Too many tags (" ++ a ++ "/" ++ b ++
      " maximum)") = false := by
    intro a b
    simp only [String.append_assoc]
    exact isTotalNote_append _ _ (by decide)
  have hX : ∀ a b : String, isTotalNote ("Total content exceeds character limit ("
      ++ a ++ "/" ++ b ++ ")") = true := by
    intro a b
    simp only [String.append_assoc]
    exact isTotalNote_append_true _ _ (by decide)
  simp only [get_platform_rules, x_twitter_rules]
  simp [List.any_append, qcFieldChunk_any, any_ite, hD, hC, hP, hB, hU, hPr,
    hH, hA, hCo, hT, hTF, hTM, hX, totalXChars]

/-- A tag-count ERROR (too few or too many tags). -/
def isTagCountIssue (i : ValidationIssue) : Bool :=
  decide (i.field = "tags") && decide (i.severity = ValidationSeverity.error)
    && (decide (i.message = "Too few tags") ||
        decide (i.message = "Too many tags"))

lemma char_stage_no_tagcount (c : PlatformContent) (r : PlatformRules) :
    (validate_character_limits c r).any isTagCountIssue = false := by
  unfold validate_character_limits titleLimitChunk x_total_chunk
  cases hm : r.post_max_length <;>
    simp [List.any_append, fieldLimitChunk_any, isTagCountIssue, limitIssue,
      any_ite]

lemma tag_stage_tagcount_iff (c : PlatformContent) (r : PlatformRules) :
    ((validate_tag_count c r).any isTagCountIssue = true) ↔
      (c.tag_count < r.tag_min_count ∨ r.tag_max_count < c.tag_count) := by
  unfold validate_tag_count
  split_ifs with h1 h2 <;> simp [isTagCountIssue] <;> omega

lemma quality_stage_no_tagcount (c : PlatformContent) (r : PlatformRules) :
    (validate_content_quality c r).any isTagCountIssue = false := by
  unfold validate_content_quality
  split_ifs <;> simp [isTagCountIssue, any_ite]

lemma optimal_stage_no_tagcount (c : PlatformContent) (r : PlatformRules) :
    (validate_optimal_lengths c r).any isTagCountIssue = false := by
  unfold validate_optimal_lengths
  split_ifs <;> simp [isTagCountIssue, any_ite]

lemma platform_stage_no_tagcount (c : PlatformContent) (r : PlatformRules) :
    (validate_platform_specific c r).any isTagCountIssue = false := by
  unfold validate_platform_specific
  split_ifs <;> simp [isTagCountIssue, any_ite]

/-- A malformed-hashtag ERROR. -/
def isMalformedIssue (i : ValidationIssue) : Bool :=
  decide (i.field = "tags") && decide (i.severity = ValidationSeverity.error)
    && decide (i.message = "Malformed hashtags detected")

lemma filter_isEmpty_eq_not_any {α : Type} (l : List α) (p : α → Bool) :
    (l.filter p).isEmpty = !l.any p := by
  induction l with
  | nil => rfl
  | cons a t ih => by_cases h : p a <;> simp [List.filter_cons, h, ih]

lemma char_stage_no_malformed (c : PlatformContent) (r : PlatformRules) :
    (validate_character_limits c r).any isMalformedIssue = false := by
  unfold validate_character_limits titleLimitChunk x_total_chunk
  cases hm : r.post_max_length <;>
    simp [List.any_append, fieldLimitChunk_any, isMalformedIssue, limitIssue,
      any_ite]

lemma tag_stage_no_malformed (c : PlatformContent) (r : PlatformRules) :
    (validate_tag_count c r).any isMalformedIssue = false := by
  unfold validate_tag_count
  split_ifs <;> simp [isMalformedIssue]

lemma quality_malformed_iff (c : PlatformContent) (r : PlatformRules) :
    ((validate_content_quality c r).any isMalformedIssue = true) ↔
      c.tags.any (fun t => !pyStartsWith "#" t || decide (t.length ≤ 1))
        = true := by
  unfold validate_content_quality
  simp [List.any_append, any_ite, isMalformedIssue, filter_isEmpty_eq_not_any]

lemma optimal_stage_no_malformed (c : PlatformContent) (r : PlatformRules) :
    (validate_optimal_lengths c r).any isMalformedIssue = false := by
  unfold validate_optimal_lengths
  split_ifs <;> simp [isMalformedIssue, any_ite]

lemma platform_stage_no_malformed (c : PlatformContent) (r : PlatformRules) :
    (validate_platform_specific c r).any isMalformedIssue = false := by
  unfold validate_platform_specific
  split_ifs <;> simp [isMalformedIssue, any_ite]

lemma padStep_mem (minC : Nat) (acc : List String) (tag x : String)
    (h : x ∈ acc) : x ∈ padStep minC acc tag := by
  unfold padStep; split <;> simp [h]

lemma padStep_len (minC : Nat) (acc : List String) (tag : String) :
    acc.length ≤ (padStep minC acc tag).length := by
  unfold padStep; split <;> simp

lemma foldPad_mem (minC : Nat) (gl : List String) (acc : List String)
    (x : String) (h : x ∈ acc) : x ∈ gl.foldl (padStep minC) acc := by
  induction gl generalizing acc with
  | nil => exact h
  | cons g gs ih => exact ih _ (padStep_mem _ _ _ _ h)

lemma foldPad_len (minC : Nat) (gl : List String) (acc : List String) :
    acc.length ≤ (gl.foldl (padStep minC) acc).length := by
  induction gl generalizing acc with
  | nil => exact Nat.le_refl _
  | cons g gs ih => exact Nat.le_trans (padStep_len _ _ _) (ih _)

lemma foldPad_covers (minC : Nat) (gl : List String) (acc : List String)
    (h : (gl.foldl (padStep minC) acc).length < minC) :
    ∀ g ∈ gl, g ∈ gl.foldl (padStep minC) acc := by
  induction gl generalizing acc with
  | nil => intro g hg; cases hg
  | cons g0 gs ih =>
    intro g hg
    simp only [List.foldl_cons] at h ⊢
    rcases List.mem_cons.mp hg with rfl | hgs
    · by_cases hc : (!(acc.contains g) && acc.length < minC) = true
      · refine foldPad_mem _ _ _ _ ?_
        unfold padStep
        rw [if_pos hc]
        simp
      · rcases Bool.and_eq_false_iff.mp (Bool.eq_false_iff.mpr hc) with hc1 | hc2
        · refine foldPad_mem _ _ _ _ ?_
          have hmem : g ∈ acc := by
            have : acc.contains g = true := by
              cases hcc : acc.contains g
              · rw [hcc] at hc1; simp at hc1
              · rfl
            simpa using this
          exact padStep_mem _ _ _ _ hmem
        · exfalso
          have hlen : ¬ acc.length < minC := by
            intro hlt
            rw [decide_eq_true hlt] at hc2
            simp at hc2
          have : acc.length ≤
              (gs.foldl (padStep minC) (padStep minC acc g)).length :=
            Nat.le_trans (padStep_len _ _ _) (foldPad_len _ _ _)
          omega
    · exact ih _ h g hgs

lemma foldPad_fix (minC : Nat) (gl : List String) (acc : List String)
    (h : ∀ g ∈ gl, g ∈ acc) : gl.foldl (padStep minC) acc = acc := by
  induction gl with
  | nil => rfl
  | cons g0 gs ih =>
    have hstep : padStep minC acc g0 = acc := by
      unfold padStep
      have hcont : acc.contains g0 = true := by
        simpa using h g0 (List.mem_cons_self _ _)
      rw [hcont]
      simp
    rw [List.foldl_cons, hstep]
    exact ih (fun g hg => h g (List.mem_cons_of_mem _ hg))

/-- A pass of the generic-tag pool that still leaves the list below the
minimum is a fixed point: a further pass changes nothing, so the source's
`while` loop never terminates in that state (this justifies modelling that
state as `none` in `create_fallback_tags`). -/
lemma padTagsOnce_fixpoint (minC : Nat) (tags : List String)
    (h : (padTagsOnce minC tags).length < minC) :
    padTagsOnce minC (padTagsOnce minC tags) = padTagsOnce minC tags := by
  unfold padTagsOnce at h ⊢
  exact foldPad_fix _ _ _ (foldPad_covers _ _ _ h)

lemma create_minimal_content_const (p : PlatformType) (t : VideoTranscript) :
    create_minimal_content p t =
      create_minimal_content p ⟨"placeholder text", none, none, "en", none⟩ :=
  rfl

lemma minimal_content_valid (p : PlatformType) (t : VideoTranscript) :
    (validate_content (create_minimal_content p t) false).is_valid = true := by
  rw [create_minimal_content_const]
  cases p <;> decide

lemma fallback_returns_valid (p : PlatformType) (t : VideoTranscript)
    (ov : ValidationResult) (c : PlatformContent)
    (h : create_fallback_content p t ov = some c) :
    (validate_content c false).is_valid = true := by
  simp only [create_fallback_content] at h
  cases hct : create_fallback_tags t (get_platform_rules p)
      (ov.issues.filter (fun issue => issue.field == "tags")) with
  | none => rw [hct] at h; simp at h
  | some ft =>
    rw [hct] at h
    simp only [] at h
    split at h
    · cases h
      next hvalid => exact hvalid
    · cases h
      exact minimal_content_valid p t

lemma clampScore_bounds (x : ℚ) : 0 ≤ clampScore x ∧ clampScore x ≤ 100 := by
  unfold clampScore
  exact ⟨le_max_left 0 _, max_le (by norm_num) (min_le_left _ _)⟩

lemma foldl_suggestions (l : List ValidationIssue) (acc : List String) :
    (l.foldl (fun acc issue =>
      match issue.suggestion with
      | some s => acc ++ [pyTitleStr issue.field ++ ": " ++ s]
      | none => acc) acc)
    = acc ++ l.filterMap (fun i => i.suggestion.map
        (fun s => pyTitleStr i.field ++ ": " ++ s)) := by
  induction l generalizing acc with
  | nil => simp
  | cons a t ih =>
    cases ha : a.suggestion with
    | none => simp [List.foldl_cons, ha, ih, List.filterMap_cons]
    | some s => simp [List.foldl_cons, ha, ih, List.filterMap_cons]

/-!  Claim theorems. -/

def exC1 : PlatformContent :=
  { platform := .x_twitter
    title := String.mk (List.replicate 260 'x')
    tags := ["#aaaaaaaaaaaaaaaaa", "#bbbbbbbbbbbbbbbbb", "#ccccccccccccccccc"]
    confidence_score := mkRat 9 10 }

/-- C1: for every X/Twitter record the full Validator emits a
`total_content` ERROR, and the quick-check records a total-content note,
exactly when the main text (post body when truthy, else the title) plus
`len(tag) + 1` per tag exceeds the 280-character limit; the two
implementations therefore agree on this outcome for every input. -/
theorem C1_x_twitter_total_limit (c : PlatformContent) (m : Bool)
    (h : c.platform = PlatformType.x_twitter) :
    (((validate_content c m).issues.any isTotalIssue = true) ↔
      280 < totalXChars c)
    ∧ ((((validate_against_platform_rules c
          (get_platform_rules c.platform)).1.validation_notes).any isTotalNote
        = true) ↔ 280 < totalXChars c)
    ∧ ((validate_content c m).issues.any isTotalIssue =
        ((validate_against_platform_rules c
          (get_platform_rules c.platform)).1.validation_notes).any
            isTotalNote) := by
  refine ⟨issues_any_total_iff c m h, qc_total_iff c h, ?_⟩
  have h3 : ((validate_content c m).issues.any isTotalIssue = true) ↔
      (((validate_against_platform_rules c
        (get_platform_rules c.platform)).1.validation_notes).any isTotalNote
        = true) :=
    (issues_any_total_iff c m h).trans (qc_total_iff c h).symm
  cases hA : (validate_content c m).issues.any isTotalIssue with
  | false =>
    cases hB : ((validate_against_platform_rules c
        (get_platform_rules c.platform)).1.validation_notes).any isTotalNote with
    | false => rfl
    | true =>
      have hx := h3.mpr hB
      rw [hA] at hx
      exact Bool.noConfusion hx
  | true => exact (h3.mp hA).symm

/-- C1 witness: the 260-character tweet with three 18-character tags from
the spec's scenario 4 (total 317 > 280) trips both checks. -/
theorem C1_x_twitter_total_limit_witness :
    (validate_content exC1 true).issues.any isTotalIssue = true ∧
    ((validate_against_platform_rules exC1
      (get_platform_rules exC1.platform)).1.validation_notes).any isTotalNote
      = true :=
  ⟨((C1_x_twitter_total_limit exC1 true rfl).1).mpr (by decide),
   ((C1_x_twitter_total_limit exC1 true rfl).2.1).mpr (by decide)⟩

def exC2T : VideoTranscript := { content := "hello hello hello world" }

def exC2OV : ValidationResult :=
  { is_valid := false, score := 0, issues := [], platform := .instagram,
    content := { platform := .instagram, title := "t", tags := [],
                 confidence_score := 0 } }

/-- C2: the tag-padding step of create_fallback_content does NOT always
terminate.  For an Instagram request (tag_min_count = 20) over a transcript
with two usable keywords, the keyword tags plus one full generic-tag pass
leave 7 tags, strictly below the minimum, and that pass is a fixed point
(see padTagsOnce_fixpoint), so the source's
`while len(tags) < tag_min_count` loop runs forever; the model returns
`none`. -/
theorem C2_fallback_padding_diverges :
    instagram_rules.tag_min_count = 20
    ∧ (padTagsOnce 20 ["#hello", "#world"]).length = 7
    ∧ padTagsOnce 20 (padTagsOnce 20 ["#hello", "#world"]) =
        padTagsOnce 20 ["#hello", "#world"]
    ∧ create_fallback_tags exC2T instagram_rules [] = none
    ∧ create_fallback_content PlatformType.instagram exC2T exC2OV = none := by
  decide

def exC3T : VideoTranscript := { content := "alpha beta gamma delta" }

def exC3OV : ValidationResult :=
  { is_valid := true, score := 0, issues := [], platform := .x_twitter,
    content := { platform := .x_twitter, title := "t", tags := [],
                 confidence_score := 0 } }

def exC3Out : PlatformContent :=
  { platform := .x_twitter
    title := "Video Content"
    tags := ["#alpha", "#beta", "#gamma"]
    confidence_score := mkRat 6 10 }

/-- C3: whenever create_fallback_content returns a record (on either tier),
that record passes lenient validation; the second tier's minimal record is
lenient-valid for every platform by direct evaluation
(minimal_content_valid). -/
theorem C3_fallback_validity (p : PlatformType) (t : VideoTranscript)
    (ov : ValidationResult) (c : PlatformContent)
    (h : create_fallback_content p t ov = some c) :
    (validate_content c false).is_valid = true :=
  fallback_returns_valid p t ov c h

/-- C3 witness: an X/Twitter fallback over a four-keyword transcript
returns the first-tier record, which validates leniently. -/
theorem C3_fallback_validity_witness :
    (validate_content exC3Out false).is_valid = true :=
  C3_fallback_validity PlatformType.x_twitter exC3T exC3OV exC3Out (by decide)

/-- C4: validate_content yields a tag-count ERROR (field "tags", message
"Too few tags" or "Too many tags") exactly when the tag count lies outside
the platform's [tag_min_count, tag_max_count] range; within range no such
issue appears. -/
theorem C4_tag_range_invariant (c : PlatformContent) (m : Bool) :
    ((validate_content c m).issues.any isTagCountIssue = true) ↔
      (c.tag_count < (get_platform_rules c.platform).tag_min_count ∨
        (get_platform_rules c.platform).tag_max_count < c.tag_count) := by
  have hiss : (validate_content c m).issues =
      validate_character_limits c (get_platform_rules c.platform)
      ++ validate_tag_count c (get_platform_rules c.platform)
      ++ validate_content_quality c (get_platform_rules c.platform)
      ++ validate_optimal_lengths c (get_platform_rules c.platform)
      ++ validate_platform_specific c (get_platform_rules c.platform) := rfl
  rw [hiss]
  simp only [List.any_append, char_stage_no_tagcount,
    quality_stage_no_tagcount, optimal_stage_no_tagcount,
    platform_stage_no_tagcount, Bool.or_false, Bool.false_or]
  exact tag_stage_tagcount_iff c _

def exC5 : PlatformContent :=
  { platform := .x_twitter
    title := "A reasonable title"
    post_body := some (String.mk (List.replicate 120 'y'))
    tags := ["#hello"]
    confidence_score := mkRat 9 10 }

/-- C5 counterexample: on a record carrying both a tag-count ERROR and an
optimal-length INFO, the issue list does not follow the claimed stage order
(character limits, optimal lengths, tag count, quality, platform-specific):
the source runs the tag-count stage before the optimal-length stage. -/
theorem C5_counterexample :
    (validate_content exC5 true).issues ≠
      validate_character_limits exC5 (get_platform_rules exC5.platform)
      ++ validate_optimal_lengths exC5 (get_platform_rules exC5.platform)
      ++ validate_tag_count exC5 (get_platform_rules exC5.platform)
      ++ validate_content_quality exC5 (get_platform_rules exC5.platform)
      ++ validate_platform_specific exC5 (get_platform_rules exC5.platform) := by
  decide

/-- C5 amended: the issues list of validate_content is the concatenation,
order preserved, of the five stages in the source's order: character
limits, then tag count, then content quality, then optimal lengths, then
platform-specific. -/
theorem C5_stage_order (c : PlatformContent) (m : Bool) :
    (validate_content c m).issues =
      validate_character_limits c (get_platform_rules c.platform)
      ++ validate_tag_count c (get_platform_rules c.platform)
      ++ validate_content_quality c (get_platform_rules c.platform)
      ++ validate_optimal_lengths c (get_platform_rules c.platform)
      ++ validate_platform_specific c (get_platform_rules c.platform) := rfl

/-- C7: the quality score of every validation result lies in [0, 100] (the
source clamps each dimension and the weighted sum into that interval). -/
theorem C7_score_bounds (c : PlatformContent) (m : Bool) :
    0 ≤ (validate_content c m).score ∧ (validate_content c m).score ≤ 100 := by
  have h : (validate_content c m).score =
      calculate_quality_score c (get_platform_rules c.platform)
        (validate_content c m).issues := rfl
  rw [h]
  unfold calculate_quality_score
  exact clampScore_bounds _

lemma validate_issues_eq (c : PlatformContent) (m : Bool) :
    (validate_content c m).issues =
      content_issues c (get_platform_rules c.platform) := rfl

lemma validate_is_valid_eq (c : PlatformContent) (m : Bool) :
    (validate_content c m).is_valid =
      if m then
        decide (error_count_of
          (content_issues c (get_platform_rules c.platform)) = 0)
      else
        decide (error_count_of
          (content_issues c (get_platform_rules c.platform)) ≤ 1) := rfl

/-- C8: is_valid is `error_count == 0` under strict mode and
`error_count <= 1` under lenient mode over the same issue list, so strict
validity implies lenient validity. -/
theorem C8_strict_lenient (c : PlatformContent) :
    ((validate_content c true).is_valid =
      decide (error_count_of (validate_content c true).issues = 0))
    ∧ ((validate_content c false).is_valid =
      decide (error_count_of (validate_content c false).issues ≤ 1))
    ∧ ((validate_content c true).is_valid = true →
        (validate_content c false).is_valid = true) := by
  have hv1 := validate_is_valid_eq c true
  have hv0 := validate_is_valid_eq c false
  simp only [if_true, Bool.false_eq_true, if_false] at hv1 hv0
  refine ⟨?_, ?_, fun h => ?_⟩
  · rw [hv1, validate_issues_eq c true]
  · rw [hv0, validate_issues_eq c false]
  · rw [hv1] at h
    rw [hv0]
    have h0 : error_count_of
        (content_issues c (get_platform_rules c.platform)) = 0 :=
      of_decide_eq_true h
    exact decide_eq_true (by omega)

def exC8 : PlatformContent :=
  { platform := .youtube
    title := "Great AI Tutorial for Beginners"
    tags := ["#ai", "#ml", "#tech", "#tutorial", "#learn", "#code", "#data",
             "#science", "#python", "#guide"]
    confidence_score := mkRat 9 10 }

/-- C8 witness: a strict-valid YouTube record is also lenient-valid. -/
theorem C8_strict_lenient_witness :
    (validate_content exC8 false).is_valid = true :=
  (C8_strict_lenient exC8).2.2 (by decide)

/-- C9: suggest_improvements emits exactly one "<Field>: <suggestion>" line
per issue carrying a suggestion, in issue order, followed by the generic
regeneration line exactly when score < 80 and then the generic
low-confidence line exactly when confidence_score < 0.7. -/
theorem C9_suggestions (r : ValidationResult) :
    suggest_improvements r =
      r.issues.filterMap (fun i => i.suggestion.map
        (fun s => pyTitleStr i.field ++ ": " ++ s))
      ++ (if r.score < 80 then
          ["Consider regenerating content for higher quality"] else [])
      ++ (if r.content.confidence_score < mkRat 7 10 then
          ["Low AI confidence - try different tone or keywords"] else []) := by
  unfold suggest_improvements
  rw [foldl_suggestions]
  simp only [List.nil_append]
  split_ifs <;> simp [List.append_assoc]

/-- C10: validate_content leaves the record untouched — the returned
result's content is the very record passed in, in particular with
meets_requirements and validation_notes unchanged (only the quick-check
writes those fields). -/
theorem C10_validate_pure (c : PlatformContent) (m : Bool) :
    (validate_content c m).content = c ∧
    (validate_content c m).content.meets_requirements = c.meets_requirements ∧
    (validate_content c m).content.validation_notes = c.validation_notes :=
  ⟨rfl, rfl, rfl⟩

/-- C6 amended: a malformed-hashtag ERROR is produced exactly when some tag
does not start with '#' or has total length at most 1 (the source checks
`len(tag) <= 1`, not the length after the '#', so "#" plus one character is
accepted). -/
theorem C6_malformed_hashtags (c : PlatformContent) (m : Bool) :
    ((validate_content c m).issues.any isMalformedIssue = true) ↔
      c.tags.any (fun t => !pyStartsWith "#" t || decide (t.length ≤ 1))
        = true := by
  have hiss : (validate_content c m).issues =
      validate_character_limits c (get_platform_rules c.platform)
      ++ validate_tag_count c (get_platform_rules c.platform)
      ++ validate_content_quality c (get_platform_rules c.platform)
      ++ validate_optimal_lengths c (get_platform_rules c.platform)
      ++ validate_platform_specific c (get_platform_rules c.platform) := rfl
  rw [hiss]
  simp only [List.any_append, char_stage_no_malformed, tag_stage_no_malformed,
    optimal_stage_no_malformed, platform_stage_no_malformed,
    Bool.or_false, Bool.false_or]
  exact quality_malformed_iff c _

def exC6 : PlatformContent :=
  { platform := .x_twitter
    title := "A nice long title"
    tags := ["#ab", "#a"]
    confidence_score := mkRat 9 10 }

/-- C6 counterexample: the tag "#a" has exactly one character after the
'#', so the claim demands a malformed-hashtag ERROR, but the source's
condition `len(tag) <= 1` accepts it and validate_content produces no such
issue, refuting the claimed equivalence at this record. -/
theorem C6_counterexample :
    ¬(((validate_content exC6 true).issues.any isMalformedIssue = true) ↔
      exC6.tags.any (fun t => !pyStartsWith "#" t || decide (t.length - 1 ≤ 1))
        = true) := by decide
